import Mathlib

/-!
Shallow embedding of the Kubernetes CAAS provider broker
(caas/kubernetes/provider/k8s.go): the naming scheme, the status
adapter, the storage provisioning chain, the reconciler and delete
primitives with their error-handling behaviour, and the unit
observation adapter.

Cluster interaction is embedded in two styles:

* a state model (`Cluster`) for the storage chain, where API reads are
  evaluated against explicit cluster contents and the API calls that
  were performed are recorded in a ghost trace (`StorageOp`); transient
  API faults are out of this model, matching the claims it serves;
* an oracle model for the error-handling paths, where the outcome of
  each API call (`Option K8sError`) is an explicit argument and the
  operations attempted are recorded in a ghost trace.

External library functions at the boundary (the k8s quantity parser,
the juju names unit-tag parser) are taken as parameters of the
embedded functions; an explicit executable model of the unit-tag
parser is provided for concrete evaluation, modelled from the
gopkg.in/juju/names.v2 dependency.
-/

/-- Cluster API error classification as used throughout k8s.go: a
not-found response (k8serrors.IsNotFound) or any other error with a
message. errors.Trace preserves the cause and is modelled as the
identity. -/
inductive K8sError
  | notFound
  | other (m : String)
deriving DecidableEq

/-- Go map indexing returning the zero value for a missing key, as in
pod.Labels[k]. -/
def lookupDefault (m : List (String × String)) (k : String) : String :=
  match m.find? (fun p => p.1 == k) with
  | some p => p.2
  | none => ""

/-- Go comma-ok map indexing, as in v, ok := sc.Annotations[k]. -/
def lookupKey (m : List (String × String)) (k : String) : Option String :=
  match m.find? (fun p => p.1 == k) with
  | some p => some p.2
  | none => none

/-- Label key constants from k8s.go. -/
def labelOperator : String := "juju-operator"

def labelStorage : String := "juju-storage"

def labelVersion : String := "juju-version"

def labelApplication : String := "juju-application"

def labelUnit : String := "juju-unit"

def operatorStorageClassName : String := "juju-operator-storage"

def operatorStorageSize : String := "10Mi"

/-- Naming scheme: operatorPodName from k8s.go. -/
def operatorPodName (appName : String) : String :=
  "juju-operator-" ++ appName

/-- Naming scheme: operatorConfigMapName from k8s.go. -/
def operatorConfigMapName (appName : String) : String :=
  operatorPodName appName ++ "-config"

/-- Naming scheme: deploymentName from k8s.go. -/
def deploymentName (appName : String) : String :=
  "juju-" ++ appName

/-- Naming scheme: applicationConfigMapName from k8s.go
(fmt.Sprintf of deploymentName, the file-set name and a fixed suffix). -/
def applicationConfigMapName (appName fileSetName : String) : String :=
  deploymentName appName ++ "-" ++ fileSetName ++ "-config"

/-- Naming scheme: operatorVolumeClaim from k8s.go. -/
def operatorVolumeClaim (appName : String) : String :=
  appName ++ "-operator-volume-claim"

/-- Pod phase constants of the external k8s core API (core.PodRunning,
core.PodFailed, core.PodPending are these well-known strings). -/
def podRunning : String := "Running"

def podFailed : String := "Failed"

def podPending : String := "Pending"

/-- Domain status vocabulary (status.Status values used by k8s.go). -/
inductive JujuStatus
  | terminated
  | running
  | error
  | allocating
  | unknown
deriving DecidableEq

/-- jujuStatus from k8s.go: the deletion marker wins, then the
pod-phase switch with a default of unknown. -/
def jujuStatus (podPhase : String) (terminated : Bool) : JujuStatus :=
  if terminated then JujuStatus.terminated
  else if podPhase = podRunning then JujuStatus.running
  else if podPhase = podFailed then JujuStatus.error
  else if podPhase = podPending then JujuStatus.allocating
  else JujuStatus.unknown

/-! ## Storage chain: state model -/

/-- Storage class as far as k8s.go reads it: name, labels,
annotations. -/
structure StorageClass where
  name : String
  labels : List (String × String)
  annotations : List (String × String)
deriving DecidableEq

/-- Persistent volume as far as k8s.go reads it. -/
structure PersistentVolume where
  name : String
  labels : List (String × String)
  phase : String
  storageClassName : String
deriving DecidableEq

/-- Persistent volume claim: name and the volume it is bound to
(pvc.Spec.VolumeName). -/
structure PVClaim where
  name : String
  volumeName : String
deriving DecidableEq

/-- Cluster contents read by the storage chain, all in the broker's
namespace. -/
structure Cluster where
  claims : List PVClaim
  volumes : List PersistentVolume
  classes : List StorageClass
deriving DecidableEq

/-- volumeParams from k8s.go. -/
structure VolumeParams where
  storageLabels : List String
  storageClassName : String
  pvcName : String
  volumeName : String
  volumeSize : String
  accessMode : String
deriving DecidableEq

/-- Ghost trace of the cluster API calls issued by the storage chain.
Each constructor corresponds to one API call in the source. -/
inductive StorageOp
  | claimGet (name : String)
  | volumeList (labels : List String)
  | classGetByName (name : String)
  | classListByLabel (labels : List String)
  | classListAll
  | claimCreate (name volumeName className accessMode : String)
deriving DecidableEq

/-- core.Volume with a PersistentVolumeClaim source, as built by
makeVolumeSpec inside maybeGetVolume. -/
structure VolumeRef where
  name : String
  claimName : String
deriving DecidableEq

/-- Errors produced by maybeGetVolume in the state model: the
distinguishable not-found condition (errors.NewNotFound over the
requested labels) or a malformed capacity string. -/
inductive StorageErr
  | notFound (labels : List String)
  | invalidQuantity (s : String)
deriving DecidableEq

/-- errors.IsNotFound classification on StorageErr. -/
def isNotFoundErr : StorageErr → Bool
  | StorageErr.notFound _ => true
  | StorageErr.invalidQuantity _ => false

def volumeAvailable : String := "Available"

/-- Evaluation of the label selector "juju-storage in (values)" against
a resource's labels: the juju-storage label must be present with a
value in the requested set. -/
def inLabelSelector (resourceLabels : List (String × String)) (values : List String) : Bool :=
  match lookupKey resourceLabels labelStorage with
  | some v => values.contains v
  | none => false

def isDefaultClassKey : String := "storageclass.kubernetes.io/is-default-class"

/-- Default-class test from maybeGetStorageClass: the annotation is
present and its value is not the string false. -/
def isDefaultStorageClass (sc : StorageClass) : Bool :=
  match lookupKey sc.annotations isDefaultClassKey with
  | some v => v != "false"
  | none => false

/-- First step of maybeGetStorageClass: the by-name Get, attempted only
when a name was supplied. -/
def storageClassByName (cluster : Cluster) (name : String) : Option StorageClass :=
  if name = "" then none else cluster.classes.find? (fun sc => sc.name == name)

/-- Trace of the by-name Get (issued only when a name was supplied). -/
def classByNameTrace (name : String) : List StorageOp :=
  if name = "" then [] else [StorageOp.classGetByName name]

/-- maybeGetStorageClass from k8s.go: by exact name when supplied, else
the first class matching the juju-storage label selector, else the
first class carrying a non-false default-class annotation; none means
the not-found condition. -/
def maybeGetStorageClass (cluster : Cluster) (name : String) (labels : List String) :
    Option StorageClass × List StorageOp :=
  match storageClassByName cluster name with
  | some sc => (some sc, classByNameTrace name)
  | none =>
    match cluster.classes.filter (fun sc => inLabelSelector sc.labels labels) with
    | sc :: _ => (some sc, classByNameTrace name ++ [StorageOp.classListByLabel labels])
    | [] =>
      (cluster.classes.find? isDefaultStorageClass,
       classByNameTrace name ++ [StorageOp.classListByLabel labels, StorageOp.classListAll])

/-- getAvailableVolume from k8s.go: among volumes matching the
juju-storage label selector, the first one in phase Available whose
class matches the requested class when one was requested; the result
is the volume name and its class name. -/
def getAvailableVolume (cluster : Cluster) (storageClassName : String) (labels : List String) :
    Option (String × String) :=
  ((cluster.volumes.filter (fun pv => inLabelSelector pv.labels labels)).find?
      (fun pv => pv.phase == volumeAvailable &&
        (storageClassName == "" || pv.storageClassName == storageClassName))).map
    (fun pv => (pv.name, pv.storageClassName))

/-- Access-mode defaulting from maybeGetVolume (default single-writer). -/
def accessModeOrDefault (m : String) : String :=
  if m = "" then "ReadWriteOnce" else m

/-- Tail of maybeGetVolume once a volume name and class name are
chosen: parse the capacity (the external resource.ParseQuantity, taken
as a parameter), then create the claim; the returned volume carries
the submitted VolumeName and references the claim. -/
def finishClaim (parse : String → Option Nat) (params : VolumeParams)
    (pvName scName : String) (t : List StorageOp) :
    Except StorageErr VolumeRef × List StorageOp :=
  match parse params.volumeSize with
  | none => (Except.error (StorageErr.invalidQuantity params.volumeSize), t)
  | some _ =>
    (Except.ok { name := pvName, claimName := params.pvcName },
     t ++ [StorageOp.claimCreate params.pvcName pvName scName
             (accessModeOrDefault params.accessMode)])

/-- maybeGetVolume from k8s.go: reuse an existing claim immediately;
otherwise look for a labelled available volume; otherwise resolve a
storage class; when that also fails return the distinguishable
not-found error; otherwise create a new claim. -/
def maybeGetVolume (parse : String → Option Nat) (cluster : Cluster) (params : VolumeParams) :
    Except StorageErr VolumeRef × List StorageOp :=
  match cluster.claims.find? (fun c => c.name == params.pvcName) with
  | some pvc =>
    (Except.ok { name := pvc.volumeName, claimName := params.pvcName },
     [StorageOp.claimGet params.pvcName])
  | none =>
    match getAvailableVolume cluster params.storageClassName params.storageLabels with
    | some (pvName, scName) =>
      finishClaim parse params pvName scName
        [StorageOp.claimGet params.pvcName, StorageOp.volumeList params.storageLabels]
    | none =>
      match maybeGetStorageClass cluster params.storageClassName params.storageLabels with
      | (some sc, ct) =>
        finishClaim parse params "" sc.name
          ([StorageOp.claimGet params.pvcName, StorageOp.volumeList params.storageLabels] ++ ct)
      | (none, ct) =>
        (Except.error (StorageErr.notFound params.storageLabels),
         [StorageOp.claimGet params.pvcName, StorageOp.volumeList params.storageLabels] ++ ct)

/-! ## Application orchestrator: oracle model -/

/-- Ghost trace of the resource operations attempted by EnsureService
and its helpers (the config-map writes of configurePodFiles are
summarized by their outcome and not traced individually). -/
inductive EnsureOp
  | deploymentUpdate
  | deploymentCreate
  | deploymentDelete
  | serviceGet
  | serviceUpdate
  | serviceCreate
deriving DecidableEq

/-- ensureDeployment from k8s.go: attempt the update; on a not-found
response create instead; any other failure propagates. -/
def ensureDeployment (updateRes createRes : Option K8sError) :
    Option K8sError × List EnsureOp :=
  match updateRes with
  | some K8sError.notFound => (createRes, [EnsureOp.deploymentUpdate, EnsureOp.deploymentCreate])
  | some (K8sError.other m) => (some (K8sError.other m), [EnsureOp.deploymentUpdate])
  | none => (none, [EnsureOp.deploymentUpdate])

/-- configureDeployment from k8s.go: project the file sets into config
maps (summarized by their outcome), then write the deployment via
ensureDeployment. The pure construction of the deployment spec is not
material to the claims and is elided. -/
def configureDeployment (podFilesRes updateRes createRes : Option K8sError) :
    Option K8sError × List EnsureOp :=
  match podFilesRes with
  | some e => (some e, [])
  | none => ensureDeployment updateRes createRes

/-- ensureService (lower case) from k8s.go: read the existing service
to keep its immutable fields (the Get outcome does not influence
control flow), then update, and create on a not-found response. -/
def ensureService (updateRes createRes : Option K8sError) :
    Option K8sError × List EnsureOp :=
  match updateRes with
  | some K8sError.notFound =>
    (createRes, [EnsureOp.serviceGet, EnsureOp.serviceUpdate, EnsureOp.serviceCreate])
  | some (K8sError.other m) =>
    (some (K8sError.other m), [EnsureOp.serviceGet, EnsureOp.serviceUpdate])
  | none => (none, [EnsureOp.serviceGet, EnsureOp.serviceUpdate])

/-- configureService from k8s.go: the pure port and spec construction
is elided; the write path is ensureService. -/
def configureService (updateRes createRes : Option K8sError) :
    Option K8sError × List EnsureOp :=
  ensureService updateRes createRes

/-- Inputs of one EnsureService call in the oracle model: the
validated arguments and the outcome of each step's API interaction. -/
structure EnsureServiceArgs where
  numUnits : Int
  specPresent : Bool
  omitServiceFrontend : Bool
  unitSpecRes : Option String
  storageRes : Option K8sError
  podFilesRes : Option K8sError
  depUpdateRes : Option K8sError
  depCreateRes : Option K8sError
  svcUpdateRes : Option K8sError
  svcCreateRes : Option K8sError
deriving DecidableEq

/-- Errors returned by EnsureService: input validation, unit-spec
parsing, or a cluster error from one of the steps. -/
inductive EnsureErr
  | invalidArgs (m : String)
  | parse (m : String)
  | k8s (e : K8sError)
deriving DecidableEq

/-- EnsureService from k8s.go: validate arguments, parse the unit
spec, configure storage, write the deployment (pushing its rollback
delete on the cleanup stack), then unless opted out write the service;
the deferred cleanup stack runs exactly when an error is returned, so
a service failure triggers the deployment rollback delete before the
error is returned, while failures up to and including the deployment
write return with an empty cleanup stack. -/
def EnsureService (a : EnsureServiceArgs) : Option EnsureErr × List EnsureOp :=
  if a.numUnits ≤ 0 then
    (some (EnsureErr.invalidArgs "number of units must be > 0"), [])
  else if a.specPresent = false then
    (some (EnsureErr.invalidArgs "missing pod spec"), [])
  else
    match a.unitSpecRes with
    | some m => (some (EnsureErr.parse m), [])
    | none =>
      match a.storageRes with
      | some e => (some (EnsureErr.k8s e), [])
      | none =>
        match configureDeployment a.podFilesRes a.depUpdateRes a.depCreateRes with
        | (some e, ops) => (some (EnsureErr.k8s e), ops)
        | (none, ops) =>
          if a.omitServiceFrontend then (none, ops)
          else
            match configureService a.svcUpdateRes a.svcCreateRes with
            | (none, sops) => (none, ops ++ sops)
            | (some e, sops) =>
              (some (EnsureErr.k8s e), ops ++ sops ++ [EnsureOp.deploymentDelete])

/-! ## Delete primitives and the bounded deletion wait -/

/-- Outcome of one poll of pods.Get inside the deletion wait: the pod
is still there, gone (not-found), or the API failed. -/
inductive GetRes
  | found
  | notFound
  | err (m : String)
deriving DecidableEq

/-- Error returned by deletePod: a propagated cluster error, or the
bounded wait running out (retry.DurationExceeded). -/
inductive DeleteErr
  | cluster (m : String)
  | timeout
deriving DecidableEq

/-- Fixed inter-poll delay of the deletion wait, in seconds
(5 * time.Second in the source). -/
def podPollDelaySeconds : Nat := 5

/-- Fixed overall deadline of the deletion wait, in seconds
(2 * time.Minute in the source). -/
def podPollMaxSeconds : Nat := 120

/-- Number of polls the bounded wait can make before the deadline
passes: wall-clock time is modelled by this attempt budget derived
from the fixed delay and the fixed maximum duration. -/
def podPollAttempts : Nat := podPollMaxSeconds / podPollDelaySeconds + 1

/-- The retry.Call loop of deletePod specialized to its arguments: a
not-found Get means the pod is gone (success); a Get that still finds
the pod is the non-fatal retry sentinel; any other error is fatal and
aborts the wait; exhausting the attempt budget is the timeout
(DurationExceeded) outcome. -/
def waitPodGone (get : Nat → GetRes) : Nat → Nat → Option DeleteErr
  | _, 0 => some DeleteErr.timeout
  | i, Nat.succ fuel =>
    match get i with
    | GetRes.notFound => none
    | GetRes.err m => some (DeleteErr.cluster m)
    | GetRes.found => waitPodGone get (i + 1) fuel

/-- deletePod from k8s.go: issue the delete, treat not-found as
success, propagate any other delete error, then wait for the pod to be
observably gone with the bounded poll. -/
def deletePod (deleteRes : Option K8sError) (get : Nat → GetRes) : Option DeleteErr :=
  match deleteRes with
  | some K8sError.notFound => none
  | some (K8sError.other m) => some (DeleteErr.cluster m)
  | none => waitPodGone get 0 podPollAttempts

/-- deleteService from k8s.go: not-found is success, anything else
propagates. -/
def deleteService (res : Option K8sError) : Option K8sError :=
  match res with
  | some K8sError.notFound => none
  | r => r

/-- deleteDeployment from k8s.go. -/
def deleteDeployment (res : Option K8sError) : Option K8sError :=
  match res with
  | some K8sError.notFound => none
  | r => r

/-- deleteIngress from k8s.go. -/
def deleteIngress (res : Option K8sError) : Option K8sError :=
  match res with
  | some K8sError.notFound => none
  | r => r

/-- deleteNamespace from k8s.go. -/
def deleteNamespace (res : Option K8sError) : Option K8sError :=
  match res with
  | some K8sError.notFound => none
  | r => r

/-- Ghost trace of the delete calls issued by DeleteOperator. -/
inductive DelOp
  | pvcDelete (name : String)
  | configMapDelete (name : String)
  | podDelete (name : String)
deriving DecidableEq

/-- DeleteOperator from k8s.go, translated exactly as written: after
the volume-claim delete and after the config-map delete the source
tests err for a non-not-found failure and in that branch returns nil,
so such a failure ends the call reporting success with the remaining
steps skipped; otherwise it proceeds and finally deletes the pod. -/
def DeleteOperator (appName : String) (pvcRes cmRes podDelRes : Option K8sError)
    (get : Nat → GetRes) : Option DeleteErr × List DelOp :=
  match pvcRes with
  | some (K8sError.other _) => (none, [DelOp.pvcDelete (operatorVolumeClaim appName)])
  | _ =>
    match cmRes with
    | some (K8sError.other _) =>
      (none, [DelOp.pvcDelete (operatorVolumeClaim appName),
              DelOp.configMapDelete (operatorConfigMapName appName)])
    | _ =>
      (deletePod podDelRes get,
       [DelOp.pvcDelete (operatorVolumeClaim appName),
        DelOp.configMapDelete (operatorConfigMapName appName),
        DelOp.podDelete (operatorPodName appName)])

/-! ## Operator pod and the in-place image update -/

/-- Pod as far as maybeUpdatePodImage reads and writes it: name,
labels and the first container's image. -/
structure PodModel where
  name : String
  labels : List (String × String)
  image : String
deriving DecidableEq

/-- operatorPod from k8s.go restricted to the fields this model
carries: the derived pod name, the operator and version labels, and
the operator image (agentPath only shapes the elided volume mounts). -/
def operatorPod (appName agentPath operatorImagePath version : String) : PodModel :=
  { name := operatorPodName appName
    labels := [(labelOperator, appName), (labelVersion, version)]
    image := operatorImagePath }

/-- Errors of maybeUpdatePodImage. -/
inductive UpdateErr
  | k8s (e : K8sError)
  | notFoundPod
  | versionMismatch
deriving DecidableEq

/-- maybeUpdatePodImage from k8s.go, translated exactly as written:
list the pods for the selector, fail with not-found when none, then
compare pod.Labels[jujuVersion] (the label stored under the version
string itself, not under the juju-version label key) with jujuVersion
and fail with a version mismatch when they differ; otherwise update
the first container's image. The second component is the pod submitted
to the update, when one was submitted. -/
def maybeUpdatePodImage (listRes : Except K8sError (List PodModel))
    (jujuVersion image : String) (updateRes : Option K8sError) :
    Option UpdateErr × Option PodModel :=
  match listRes with
  | Except.error e => (some (UpdateErr.k8s e), none)
  | Except.ok [] => (some UpdateErr.notFoundPod, none)
  | Except.ok (pod :: _) =>
    if lookupDefault pod.labels jujuVersion ≠ jujuVersion then
      (some UpdateErr.versionMismatch, none)
    else
      match updateRes with
      | some e => (some (UpdateErr.k8s e), some { pod with image := image })
      | none => (none, some { pod with image := image })

/-! ## Observation adapter: Units -/

/-- Container port as read by Units. -/
structure PortSpec where
  containerPort : Int
  protocol : String
deriving DecidableEq

/-- Container as read by Units. -/
structure ContainerState where
  ports : List PortSpec
deriving DecidableEq

/-- Pod as read by Units: identity, labels, address, status fields and
the deletion marker (DeletionTimestamp set). -/
structure PodState where
  uid : String
  labels : List (String × String)
  podIP : String
  message : String
  phase : String
  deletionTimestamp : Bool
  containers : List ContainerState
deriving DecidableEq

/-- caas.Unit as built by Units (the Since timestamp, a wall-clock
read, is elided). -/
structure UnitInfo where
  id : String
  address : String
  ports : List String
  dying : Bool
  statusValue : JujuStatus
  statusMessage : String
  unitTag : String
deriving DecidableEq

/-- Port strings of a pod, flattened over containers in order, each
rendered as containerPort/protocol. -/
def podPorts (p : PodState) : List String :=
  (p.containers.map (fun c =>
    c.ports.map (fun q => toString q.containerPort ++ "/" ++ q.protocol))).flatten

/-- Executable prefix test over the underlying character lists
(strings.HasPrefix). -/
def listHasPre : List Char → List Char → Bool
  | _, [] => true
  | [], _ :: _ => false
  | c :: cs, d :: ds => (c == d) && listHasPre cs ds

def strHasPre (s pre : String) : Bool := listHasPre s.data pre.data

/-- Drop of leading characters; for a string known to start with the
five-byte ASCII marker juju- this agrees with the source's byte slice
unitLabel[5:]. -/
def strDropChars (s : String) (n : Nat) : String := String.mk (s.data.drop n)

/-- Per-pod projection done inside the Units loop: identity, address,
ports, dying marker and derived status, plus recovery of the logical
unit tag from the juju-unit label when that label carries the juju-
marker and its remainder parses as a unit tag (the parser is the
external names.ParseUnitTag, taken as a parameter returning the parsed
tag's string form). -/
def unitFromPod (parse : String → Option String) (p : PodState) : UnitInfo :=
  let terminated := p.deletionTimestamp
  let base : UnitInfo :=
    { id := p.uid
      address := p.podIP
      ports := podPorts p
      dying := terminated
      statusValue := jujuStatus p.phase terminated
      statusMessage := p.message
      unitTag := "" }
  let unitLabel := lookupDefault p.labels labelUnit
  if strHasPre unitLabel "juju-" then
    match parse (strDropChars unitLabel 5) with
    | some tagStr => { base with unitTag := tagStr }
    | none => base
  else base

/-- Units from k8s.go over the pods listed for the application label:
every listed pod yields one result entry. (The source name Units is
taken by the library, hence UnitsOf.) -/
def UnitsOf (parse : String → Option String) (pods : List PodState) : List UnitInfo :=
  pods.map (unitFromPod parse)

/-! ## Executable model of the external unit-tag parser

Modelled from the gopkg.in/juju/names.v2 dependency (ParseUnitTag):
split the tag at its first dash into kind and remainder, require kind
unit, turn the remainder's last dash into a slash, validate it as an
application/number unit name, and render the accepted tag back as
unit- followed by the name with its slash turned into a dash. -/

/-- Split at the first occurrence of the separator. -/
def splitFirstAux (sep : Char) : List Char → Option (List Char × List Char)
  | [] => none
  | c :: rest =>
    if c = sep then some ([], rest)
    else
      match splitFirstAux sep rest with
      | some (l, r) => some (c :: l, r)
      | none => none

/-- splitTag from the names library: split at the first dash; an
absent dash or a dash at position zero is a parse failure. -/
def splitTag (s : String) : Option (String × String) :=
  match splitFirstAux '-' s.data with
  | some ([], _) => none
  | some (c :: l, r) => some (String.mk (c :: l), String.mk r)
  | none => none

/-- Replace the first occurrence of a character. -/
def replaceFirstChar (c d : Char) : List Char → List Char
  | [] => []
  | x :: xs => if x = c then d :: xs else x :: replaceFirstChar c d xs

/-- unitTagSuffixToId from the names library: replace the last dash
with a slash (no change when there is no dash). -/
def unitTagSuffixToId (s : String) : String :=
  if s.data.contains '-' then String.mk (replaceFirstChar '-' '/' s.data.reverse).reverse
  else s

/-- Inverse rendering used by UnitTag.String: replace the last slash
with a dash. -/
def unitIdToName (s : String) : String :=
  if s.data.contains '/' then String.mk (replaceFirstChar '/' '-' s.data.reverse).reverse
  else s

def isAlphaLower (c : Char) : Bool := ('a' ≤ c) && (c ≤ 'z')

def isDigitCh (c : Char) : Bool := ('0' ≤ c) && (c ≤ '9')

/-- Split on dashes, keeping empty parts, as the application-name
regular expression groups the name into dash-separated words. -/
def splitOnDash : List Char → List (List Char)
  | [] => [[]]
  | c :: cs =>
    if c = '-' then [] :: splitOnDash cs
    else
      match splitOnDash cs with
      | [] => [[c]]
      | p :: ps => (c :: p) :: ps

def validWordTail (l : List Char) : Bool :=
  l.all (fun c => isAlphaLower c || isDigitCh c)

/-- First word of an application name: a lowercase letter followed by
lowercase letters and digits. -/
def validFirstWord : List Char → Bool
  | [] => false
  | c :: rest => isAlphaLower c && validWordTail rest

/-- Later words of an application name: nonempty, lowercase letters
and digits, containing at least one letter. -/
def validLaterWord (l : List Char) : Bool :=
  (!l.isEmpty) && validWordTail l && l.any isAlphaLower

def isValidApplicationName (s : String) : Bool :=
  match splitOnDash s.data with
  | [] => false
  | w :: ws => validFirstWord w && ws.all validLaterWord

/-- Unit number: zero, or a nonzero digit followed by digits. -/
def isValidNumber : List Char → Bool
  | [] => false
  | ['0'] => true
  | c :: rest => ('1' ≤ c) && (c ≤ '9') && rest.all isDigitCh

/-- IsValidUnit from the names library: application name, slash,
number. -/
def isValidUnit (s : String) : Bool :=
  match splitFirstAux '/' s.data with
  | some (app, num) => isValidApplicationName (String.mk app) && isValidNumber num
  | none => false

/-- ParseUnitTag modelled from the names.v2 dependency, returning the
accepted tag's string rendering. -/
def parseUnitTag (s : String) : Option String :=
  match splitTag s with
  | none => none
  | some (kind, rest) =>
    if kind = "unit" then
      let id := unitTagSuffixToId rest
      if isValidUnit id then some ("unit-" ++ unitIdToName id) else none
    else none

/-! ## Concrete fixtures used by the witnesses -/

/-- EnsureService oracle where every step succeeds except the service
write, which fails with a transient error. -/
def ensureArgsW : EnsureServiceArgs :=
  { numUnits := 1
    specPresent := true
    omitServiceFrontend := false
    unitSpecRes := none
    storageRes := none
    podFilesRes := none
    depUpdateRes := none
    depCreateRes := none
    svcUpdateRes := some (K8sError.other "boom")
    svcCreateRes := none }

/-- EnsureService oracle where the deployment write itself fails. -/
def ensureArgsDepFail : EnsureServiceArgs :=
  { numUnits := 1
    specPresent := true
    omitServiceFrontend := false
    unitSpecRes := none
    storageRes := none
    podFilesRes := none
    depUpdateRes := some (K8sError.other "depboom")
    depCreateRes := none
    svcUpdateRes := none
    svcCreateRes := none }

/-- Cluster with no claims or volumes, one label-matched class and one
default class, for the storage-fallback witness. -/
def clusterW : Cluster :=
  { claims := []
    volumes := []
    classes :=
      [ { name := "slow"
          labels := [(labelStorage, "gitlab-unit-storage")]
          annotations := [] }
      , { name := "fast"
          labels := []
          annotations := [(isDefaultClassKey, "true")] } ] }

/-- Storage request naming the class fast explicitly. -/
def paramsW : VolumeParams :=
  { storageLabels := ["gitlab-unit-storage", "model", "default"]
    storageClassName := "fast"
    pvcName := "gitlab-fsvolume-0-claim"
    volumeName := "gitlab-fsvolume-0"
    volumeSize := "100Mi"
    accessMode := "" }

/-- Cluster already holding the claim of paramsW, bound to pv-123, for
the reuse witness. -/
def clusterReuse : Cluster :=
  { claims := [{ name := "gitlab-fsvolume-0-claim", volumeName := "pv-123" }]
    volumes := []
    classes := [] }

/-- Quantity parser stand-in accepting everything, for witnesses. -/
def parseAny (s : String) : Option Nat := some 100

/-- Poll stream where the pod never goes away. -/
def getAlwaysFound (k : Nat) : GetRes := GetRes.found

/-- Poll stream where the pod is already gone. -/
def getGone (k : Nat) : GetRes := GetRes.notFound

/-- Poll stream failing at once with a transient error. -/
def getErrFirst (k : Nat) : GetRes := GetRes.err "pollboom"

/-- Pod created by juju for unit gitlab/0, for the Units witness. -/
def podA : PodState :=
  { uid := "uid-a"
    labels := [(labelApplication, "gitlab"), (labelUnit, "juju-unit-gitlab-0")]
    podIP := "10.0.0.1"
    message := ""
    phase := "Running"
    deletionTimestamp := false
    containers := [] }

/-- Pod without a juju unit label, for the Units witness. -/
def podB : PodState :=
  { uid := "uid-b"
    labels := [(labelApplication, "gitlab")]
    podIP := "10.0.0.2"
    message := ""
    phase := "Pending"
    deletionTimestamp := false
    containers := [] }

/-! ## Helper lemmas -/

/-- Appends around a separator occurring in neither left part are
determined componentwise. -/
theorem sep_append_inj : ∀ (l₁ l₂ r₁ r₂ : List Char),
    '-' ∉ l₁ → '-' ∉ l₂ → l₁ ++ '-' :: r₁ = l₂ ++ '-' :: r₂ → l₁ = l₂ ∧ r₁ = r₂ := by
  intro l₁
  induction l₁ with
  | nil =>
    intro l₂ r₁ r₂ h1 h2 h
    cases l₂ with
    | nil =>
      refine ⟨rfl, ?_⟩
      simpa using h
    | cons d ds =>
      rw [List.nil_append, List.cons_append] at h
      injection h with hh ht
      exact absurd (hh ▸ List.mem_cons_self '-' ds) h2
  | cons c cs ih =>
    intro l₂ r₁ r₂ h1 h2 h
    cases l₂ with
    | nil =>
      rw [List.nil_append, List.cons_append] at h
      injection h with hh ht
      exact absurd (hh ▸ List.mem_cons_self c cs) h1
    | cons d ds =>
      rw [List.cons_append, List.cons_append] at h
      injection h with hh ht
      have h1' : '-' ∉ cs := fun hm => h1 (List.mem_cons_of_mem c hm)
      have h2' : '-' ∉ ds := fun hm => h2 (List.mem_cons_of_mem d hm)
      obtain ⟨hl, hr⟩ := ih ds r₁ r₂ h1' h2' ht
      exact ⟨by rw [hh, hl], hr⟩

/-- Character-level shape of applicationConfigMapName. -/
theorem appCfgData (a f : String) :
    (applicationConfigMapName a f).data =
      ("juju-" : String).data ++ (a.data ++ ('-' :: (f.data ++ ("-config" : String).data))) := by
  have hdash : ("-" : String).data = ['-'] := rfl
  simp [applicationConfigMapName, deploymentName, String.data_append, hdash, List.append_assoc]

/-- Character-level shape of operatorConfigMapName, aligned on the same
juju- marker. -/
theorem opCfgData (b : String) :
    (operatorConfigMapName b).data =
      ("juju-" : String).data ++
        (("operator" : String).data ++ ('-' :: (b.data ++ ("-config" : String).data))) := by
  have h1 : ("juju-operator-" : String).data =
      ("juju-" : String).data ++ (("operator" : String).data ++ ['-']) := rfl
  simp [operatorConfigMapName, operatorPodName, String.data_append, h1, List.append_assoc]

/-- Character-level shape of deploymentName. -/
theorem depData (a : String) :
    (deploymentName a).data = ("juju-" : String).data ++ a.data := by
  simp [deploymentName, String.data_append]

/-! ## Claim C6 -/

/-- Claim C6, counterexample: the derivation is not injective as
claimed; the distinct pairs (a-b, c) and (a, b-c) share one
application config-map name, and the application config-map of
application operator with file set x equals the operator config-map
of application x. -/
theorem naming_collision :
    applicationConfigMapName "a-b" "c" = applicationConfigMapName "a" "b-c" ∧
    ¬(("a-b" : String) = "a" ∧ ("c" : String) = "b-c") ∧
    applicationConfigMapName "operator" "x" = operatorConfigMapName "x" := by
  decide

/-- Claim C6, amended: the naming functions are deterministic and
deploymentName is injective outright; applicationConfigMapName is
injective across pairs whose components contain no hyphen, and for
such pairs it avoids every operator config-map name provided the
application is not literally named operator. -/
theorem naming_injective_amended (a₁ f₁ a₂ f₂ b : String)
    (ha₁ : '-' ∉ a₁.data) (hf₁ : '-' ∉ f₁.data)
    (ha₂ : '-' ∉ a₂.data) (hf₂ : '-' ∉ f₂.data)
    (hop : a₁ ≠ "operator") :
    (applicationConfigMapName a₁ f₁ = applicationConfigMapName a₂ f₂ → a₁ = a₂ ∧ f₁ = f₂) ∧
    applicationConfigMapName a₁ f₁ ≠ operatorConfigMapName b ∧
    (deploymentName a₁ = deploymentName a₂ → a₁ = a₂) := by
  refine ⟨?_, ?_, ?_⟩
  · intro h
    have hd := congrArg String.data h
    rw [appCfgData, appCfgData] at hd
    have hd2 := List.append_cancel_left hd
    obtain ⟨hA, hR⟩ := sep_append_inj _ _ _ _ ha₁ ha₂ hd2
    exact ⟨String.ext hA, String.ext (List.append_cancel_right hR)⟩
  · intro h
    have hd := congrArg String.data h
    rw [appCfgData, opCfgData] at hd
    have hd2 := List.append_cancel_left hd
    have hA := (sep_append_inj _ _ _ _ ha₁ (by decide) hd2).1
    exact hop (String.ext hA)
  · intro h
    have hd := congrArg String.data h
    rw [depData, depData] at hd
    exact String.ext (List.append_cancel_left hd)

/-- Witness for the amended C6 theorem at concrete hyphen-free names. -/
theorem naming_injective_witness :
    ('-' ∉ ("gitlab" : String).data) ∧
    ((applicationConfigMapName "gitlab" "scripts" = applicationConfigMapName "gitlab" "scripts" →
        ("gitlab" : String) = "gitlab" ∧ ("scripts" : String) = "scripts") ∧
      applicationConfigMapName "gitlab" "scripts" ≠ operatorConfigMapName "mysql" ∧
      (deploymentName "gitlab" = deploymentName "gitlab" → ("gitlab" : String) = "gitlab")) :=
  ⟨by decide,
   naming_injective_amended "gitlab" "scripts" "gitlab" "scripts" "mysql"
     (by decide) (by decide) (by decide) (by decide) (by decide)⟩

/-! ## Claim C7 -/

/-- Claim C7: the derived workload status is terminated whenever the
deletion marker is set, and otherwise maps phase Running to running,
Failed to error, Pending to allocating, and every other phase to
unknown. -/
theorem jujuStatus_mapping (phase : String) (terminated : Bool) :
    (terminated = true → jujuStatus phase terminated = JujuStatus.terminated) ∧
    (terminated = false →
      ((phase = podRunning → jujuStatus phase terminated = JujuStatus.running) ∧
       (phase = podFailed → jujuStatus phase terminated = JujuStatus.error) ∧
       (phase = podPending → jujuStatus phase terminated = JujuStatus.allocating) ∧
       (phase ≠ podRunning → phase ≠ podFailed → phase ≠ podPending →
         jujuStatus phase terminated = JujuStatus.unknown))) := by
  constructor
  · intro ht
    simp [jujuStatus, ht]
  · intro ht
    subst ht
    refine ⟨?_, ?_, ?_, ?_⟩
    · intro hp
      subst hp
      decide
    · intro hp
      subst hp
      decide
    · intro hp
      subst hp
      decide
    · intro h1 h2 h3
      simp [jujuStatus, h1, h2, h3]

/-- Witness for C7: a Failed pod maps to error without the deletion
marker and to terminated with it. -/
theorem jujuStatus_mapping_witness :
    jujuStatus podFailed false = JujuStatus.error ∧
    jujuStatus podFailed true = JujuStatus.terminated :=
  ⟨((jujuStatus_mapping podFailed false).2 rfl).2.1 rfl,
   (jujuStatus_mapping podFailed true).1 rfl⟩

/-! ## Claim C2 -/

/-- Claim C2 (code bug): for an operator pod whose juju-version label
equals the target version 2.4.7, maybeUpdatePodImage still refuses the
in-place update with a version mismatch and submits no update, because
the source indexes the pod labels by the version string itself rather
than by the juju-version label key that operatorPod stores. -/
theorem maybeUpdatePodImage_version_label_bug :
    lookupDefault
        (operatorPod "gitlab" "/var/lib/juju" "jujusolutions/jujud-operator" "2.4.7").labels
        labelVersion = "2.4.7" ∧
    maybeUpdatePodImage
        (Except.ok [operatorPod "gitlab" "/var/lib/juju" "jujusolutions/jujud-operator" "2.4.7"])
        "2.4.7" "jujusolutions/jujud-operator-2" none
      = (some UpdateErr.versionMismatch, none) := by
  decide

/-! ## Claim C3 -/

/-- Claim C3 (code bug): a non-not-found cluster error while deleting
the operator volume claim, or the operator config map, makes
DeleteOperator return nil (success) and skip every remaining deletion
step, instead of propagating the error as the specification requires. -/
theorem DeleteOperator_swallows_error :
    DeleteOperator "gitlab" (some (K8sError.other "boom")) none none getGone
      = (none, [DelOp.pvcDelete "gitlab-operator-volume-claim"]) ∧
    DeleteOperator "gitlab" none (some (K8sError.other "boom")) none getGone
      = (none, [DelOp.pvcDelete "gitlab-operator-volume-claim",
                DelOp.configMapDelete "juju-operator-gitlab-config"]) := by
  decide

/-! ## Claim C1 -/

/-- The deployment write always attempts the update call. -/
theorem ensureDeployment_mem_update (u c : Option K8sError) :
    EnsureOp.deploymentUpdate ∈ (ensureDeployment u c).2 := by
  match u with
  | none => simp [ensureDeployment]
  | some K8sError.notFound => simp [ensureDeployment]
  | some (K8sError.other m) => simp [ensureDeployment]

/-- The deployment write only issues deployment update and create
calls. -/
theorem ensureDeployment_ops (u c : Option K8sError) (op : EnsureOp)
    (h : op ∈ (ensureDeployment u c).2) :
    op = EnsureOp.deploymentUpdate ∨ op = EnsureOp.deploymentCreate := by
  match u with
  | none =>
    simp [ensureDeployment] at h
    exact Or.inl h
  | some K8sError.notFound =>
    simpa [ensureDeployment] using h
  | some (K8sError.other m) =>
    simp [ensureDeployment] at h
    exact Or.inl h

/-- Claim C1: with valid inputs, when the deployment write succeeds,
the service frontend is requested and the service configuration fails,
EnsureService returns that error and the very last resource operation
of the call is the rollback delete of the deployment it created; and
when the deployment write itself fails, that error is returned with no
service operation and no rollback delete attempted. -/
theorem EnsureService_rollback (a : EnsureServiceArgs)
    (h1 : 0 < a.numUnits) (h2 : a.specPresent = true)
    (h3 : a.unitSpecRes = none) (h4 : a.storageRes = none) (h5 : a.podFilesRes = none) :
    (∀ e, (ensureDeployment a.depUpdateRes a.depCreateRes).1 = none →
       a.omitServiceFrontend = false →
       (ensureService a.svcUpdateRes a.svcCreateRes).1 = some e →
       (EnsureService a).1 = some (EnsureErr.k8s e) ∧
       (EnsureService a).2.getLast? = some EnsureOp.deploymentDelete ∧
       EnsureOp.deploymentUpdate ∈ (EnsureService a).2) ∧
    (∀ e, (ensureDeployment a.depUpdateRes a.depCreateRes).1 = some e →
       (EnsureService a).1 = some (EnsureErr.k8s e) ∧
       EnsureOp.serviceGet ∉ (EnsureService a).2 ∧
       EnsureOp.serviceUpdate ∉ (EnsureService a).2 ∧
       EnsureOp.serviceCreate ∉ (EnsureService a).2 ∧
       EnsureOp.deploymentDelete ∉ (EnsureService a).2) := by
  have hn : ¬ a.numUnits ≤ 0 := not_le.mpr h1
  have e1 : (a.numUnits ≤ 0) = False := eq_false hn
  have e2 : (a.specPresent = false) = False := by simp [h2]
  constructor
  · intro e hdep homit hsvc
    cases hd : ensureDeployment a.depUpdateRes a.depCreateRes with
    | mk r ops =>
      rw [hd] at hdep
      dsimp only at hdep
      subst hdep
      cases hs : ensureService a.svcUpdateRes a.svcCreateRes with
      | mk r2 sops =>
        rw [hs] at hsvc
        dsimp only at hsvc
        subst hsvc
        have key : EnsureService a =
            (some (EnsureErr.k8s e), ops ++ sops ++ [EnsureOp.deploymentDelete]) := by
          simp only [EnsureService, configureDeployment, configureService, h3, h4, h5,
            e1, e2, if_false, hd, hs, homit, Bool.false_eq_true]
        rw [key]
        refine ⟨rfl, List.getLast?_concat _, ?_⟩
        have hmem : EnsureOp.deploymentUpdate ∈ ops := by
          have := ensureDeployment_mem_update a.depUpdateRes a.depCreateRes
          rw [hd] at this
          exact this
        exact List.mem_append_left _ (List.mem_append_left _ hmem)
  · intro e hdep
    cases hd : ensureDeployment a.depUpdateRes a.depCreateRes with
    | mk r ops =>
      rw [hd] at hdep
      dsimp only at hdep
      subst hdep
      have key : EnsureService a = (some (EnsureErr.k8s e), ops) := by
        simp only [EnsureService, configureDeployment, h3, h4, h5, e1, e2, if_false, hd]
      rw [key]
      have hops : ∀ op, op ∈ ops →
          op = EnsureOp.deploymentUpdate ∨ op = EnsureOp.deploymentCreate := by
        intro op hmem
        have h' : op ∈ (ensureDeployment a.depUpdateRes a.depCreateRes).2 := by
          rw [hd]
          exact hmem
        exact ensureDeployment_ops _ _ _ h'
      refine ⟨rfl, ?_, ?_, ?_, ?_⟩ <;>
        · intro hmem
          rcases hops _ hmem with h' | h' <;> exact EnsureOp.noConfusion h'

/-- Witness for C1 at a concrete oracle: deployment write succeeds,
service update fails with a transient error; and at a second oracle
where the deployment update itself fails. -/
theorem EnsureService_rollback_witness :
    ((EnsureService ensureArgsW).1 = some (EnsureErr.k8s (K8sError.other "boom")) ∧
     (EnsureService ensureArgsW).2.getLast? = some EnsureOp.deploymentDelete ∧
     EnsureOp.deploymentUpdate ∈ (EnsureService ensureArgsW).2) ∧
    ((EnsureService ensureArgsDepFail).1 = some (EnsureErr.k8s (K8sError.other "depboom")) ∧
     EnsureOp.serviceGet ∉ (EnsureService ensureArgsDepFail).2 ∧
     EnsureOp.serviceUpdate ∉ (EnsureService ensureArgsDepFail).2 ∧
     EnsureOp.serviceCreate ∉ (EnsureService ensureArgsDepFail).2 ∧
     EnsureOp.deploymentDelete ∉ (EnsureService ensureArgsDepFail).2) :=
  ⟨(EnsureService_rollback ensureArgsW (by decide) rfl rfl rfl rfl).1
      (K8sError.other "boom") rfl rfl rfl,
   (EnsureService_rollback ensureArgsDepFail (by decide) rfl rfl rfl rfl).2
      (K8sError.other "depboom") rfl⟩

/-! ## Claim C8 -/

/-- Claim C8, counterexample: deletePod returns a timeout error even
though the delete call succeeded and no cluster call ever failed (the
pod simply keeps existing at every poll), so a non-not-found cluster
error is not the only way these deletes return an error. -/
theorem deletePod_timeout_counterexample :
    deletePod none getAlwaysFound = some DeleteErr.timeout ∧
    deletePod none getAlwaysFound ≠ none := by
  decide

/-- Claim C8, amended: the service, deployment, ingress and namespace
deletes return success exactly when the cluster reports success or
not-found, and return an error exactly on a non-not-found cluster
error; the pod delete likewise treats a not-found delete response as
success and propagates other delete errors, but its post-delete
bounded wait can additionally end in a timeout error when the pod
persists, so its failures are either a propagated cluster error or
that timeout. -/
theorem delete_tolerance_amended :
    (∀ r, deleteService r = none ↔ (r = none ∨ r = some K8sError.notFound)) ∧
    (∀ r, deleteDeployment r = none ↔ (r = none ∨ r = some K8sError.notFound)) ∧
    (∀ r, deleteIngress r = none ↔ (r = none ∨ r = some K8sError.notFound)) ∧
    (∀ r, deleteNamespace r = none ↔ (r = none ∨ r = some K8sError.notFound)) ∧
    (∀ m, deleteService (some (K8sError.other m)) = some (K8sError.other m)) ∧
    (∀ g, deletePod (some K8sError.notFound) g = none) ∧
    (∀ m g, deletePod (some (K8sError.other m)) g = some (DeleteErr.cluster m)) ∧
    (∀ g, deletePod none g = none ∨
       (∃ m, deletePod none g = some (DeleteErr.cluster m)) ∨
       deletePod none g = some DeleteErr.timeout) := by
  refine ⟨?_, ?_, ?_, ?_, ?_, ?_, ?_, ?_⟩
  · intro r
    match r with
    | none => simp [deleteService]
    | some K8sError.notFound => simp [deleteService]
    | some (K8sError.other m) => simp [deleteService]
  · intro r
    match r with
    | none => simp [deleteDeployment]
    | some K8sError.notFound => simp [deleteDeployment]
    | some (K8sError.other m) => simp [deleteDeployment]
  · intro r
    match r with
    | none => simp [deleteIngress]
    | some K8sError.notFound => simp [deleteIngress]
    | some (K8sError.other m) => simp [deleteIngress]
  · intro r
    match r with
    | none => simp [deleteNamespace]
    | some K8sError.notFound => simp [deleteNamespace]
    | some (K8sError.other m) => simp [deleteNamespace]
  · intro m
    rfl
  · intro g
    rfl
  · intro m g
    rfl
  · intro g
    match h : deletePod none g with
    | none => exact Or.inl rfl
    | some (DeleteErr.cluster m) => exact Or.inr (Or.inl ⟨m, rfl⟩)
    | some DeleteErr.timeout => exact Or.inr (Or.inr rfl)

/-- Witness for the amended C8 theorem at concrete inputs. -/
theorem delete_tolerance_witness :
    (deleteService (some K8sError.notFound) = none ↔
      (some K8sError.notFound = none ∨
       (some K8sError.notFound : Option K8sError) = some K8sError.notFound)) ∧
    deletePod (some K8sError.notFound) getAlwaysFound = none ∧
    deletePod (some (K8sError.other "boom")) getAlwaysFound =
      some (DeleteErr.cluster "boom") :=
  ⟨delete_tolerance_amended.1 (some K8sError.notFound),
   delete_tolerance_amended.2.2.2.2.2.1 getAlwaysFound,
   delete_tolerance_amended.2.2.2.2.2.2.1 "boom" getAlwaysFound⟩

/-! ## Claim C9 -/

/-- When the pod is still found at every poll inside the attempt
budget, the wait ends in the timeout outcome. -/
theorem waitPodGone_timeout_of_found (g : Nat → GetRes) :
    ∀ fuel i, (∀ k, k < fuel → g (i + k) = GetRes.found) →
      waitPodGone g i fuel = some DeleteErr.timeout := by
  intro fuel
  induction fuel with
  | zero =>
    intro i _
    rfl
  | succ n ih =>
    intro i h
    have h0 : g i = GetRes.found := by
      have := h 0 (Nat.succ_pos n)
      simpa using this
    show waitPodGone g i (Nat.succ n) = some DeleteErr.timeout
    unfold waitPodGone
    rw [h0]
    exact ih (i + 1) (fun k hk => by
      have := h (k + 1) (Nat.succ_lt_succ hk)
      have harith : i + (k + 1) = i + 1 + k := by omega
      rw [harith] at this
      exact this)

/-- A poll error other than the pod still existing aborts the wait at
once with that error. -/
theorem waitPodGone_err_at (g : Nat → GetRes) (m : String) :
    ∀ fuel i j, j < fuel → (∀ k, k < j → g (i + k) = GetRes.found) →
      g (i + j) = GetRes.err m →
      waitPodGone g i fuel = some (DeleteErr.cluster m) := by
  intro fuel
  induction fuel with
  | zero =>
    intro i j hj
    exact absurd hj (Nat.not_lt_zero j)
  | succ n ih =>
    intro i j hj hpre herr
    cases j with
    | zero =>
      have h0 : g i = GetRes.err m := by
        have := herr
        rw [Nat.add_zero] at this
        exact this
      show waitPodGone g i (Nat.succ n) = some (DeleteErr.cluster m)
      unfold waitPodGone
      rw [h0]
    | succ jj =>
      have h0 : g i = GetRes.found := by
        have := hpre 0 (Nat.succ_pos jj)
        simpa using this
      show waitPodGone g i (Nat.succ n) = some (DeleteErr.cluster m)
      unfold waitPodGone
      rw [h0]
      refine ih (i + 1) jj (Nat.lt_of_succ_lt_succ hj) ?_ ?_
      · intro k hk
        have := hpre (k + 1) (Nat.succ_lt_succ hk)
        have harith : i + (k + 1) = i + 1 + k := by omega
        rw [harith] at this
        exact this
      · have harith : i + (jj + 1) = i + 1 + jj := by omega
        rw [harith] at herr
        exact herr

/-- The wait inspects at most its attempt budget of polls. -/
theorem waitPodGone_congr (g g' : Nat → GetRes) :
    ∀ fuel i, (∀ k, k < fuel → g (i + k) = g' (i + k)) →
      waitPodGone g i fuel = waitPodGone g' i fuel := by
  intro fuel
  induction fuel with
  | zero =>
    intro i _
    rfl
  | succ n ih =>
    intro i h
    have h0 : g i = g' i := by
      have := h 0 (Nat.succ_pos n)
      simpa using this
    show waitPodGone g i (Nat.succ n) = waitPodGone g' i (Nat.succ n)
    unfold waitPodGone
    rw [h0]
    cases g' i with
    | notFound => rfl
    | err m => rfl
    | found =>
      exact ih (i + 1) (fun k hk => by
        have := h (k + 1) (Nat.succ_lt_succ hk)
        have harith : i + (k + 1) = i + 1 + k := by omega
        rw [harith] at this
        exact this)

/-- Claim C9: the post-delete wait of deletePod is a bounded polling
loop: when the pod still exists at every poll of the fixed attempt
budget (the fixed maximum duration divided by the fixed inter-poll
delay), the call returns the timeout error rather than polling
forever; a poll failure other than the pod still existing aborts the
wait early with that error; and the outcome depends on at most the
attempt budget of polls. -/
theorem deletePod_wait_bounded :
    (∀ g, (∀ i, i < podPollAttempts → g i = GetRes.found) →
       deletePod none g = some DeleteErr.timeout) ∧
    (∀ g m j, j < podPollAttempts → (∀ i, i < j → g i = GetRes.found) →
       g j = GetRes.err m → deletePod none g = some (DeleteErr.cluster m)) ∧
    (∀ g g', (∀ i, i < podPollAttempts → g i = g' i) →
       deletePod none g = deletePod none g') := by
  refine ⟨?_, ?_, ?_⟩
  · intro g h
    show waitPodGone g 0 podPollAttempts = some DeleteErr.timeout
    exact waitPodGone_timeout_of_found g podPollAttempts 0 (fun k hk => by
      have := h k hk
      simpa using this)
  · intro g m j hj hpre herr
    show waitPodGone g 0 podPollAttempts = some (DeleteErr.cluster m)
    refine waitPodGone_err_at g m podPollAttempts 0 j hj ?_ ?_
    · intro k hk
      simpa using hpre k hk
    · simpa using herr
  · intro g g' h
    show waitPodGone g 0 podPollAttempts = waitPodGone g' 0 podPollAttempts
    exact waitPodGone_congr g g' podPollAttempts 0 (fun k hk => by
      have := h k hk
      simpa using this)

/-- Witness for C9: a pod persisting at every poll yields the timeout
error; an immediate transient poll failure is propagated. -/
theorem deletePod_wait_witness :
    deletePod none getAlwaysFound = some DeleteErr.timeout ∧
    deletePod none getErrFirst = some (DeleteErr.cluster "pollboom") :=
  ⟨deletePod_wait_bounded.1 getAlwaysFound (fun i _ => rfl),
   deletePod_wait_bounded.2.1 getErrFirst "pollboom" 0 (by decide)
     (fun i hi => absurd hi (Nat.not_lt_zero i)) rfl⟩

/-! ## Claim C5 -/

/-- Claim C5: when the target claim already exists, maybeGetVolume
returns a volume referencing that claim at once, and its only cluster
interaction is the claim read: it lists no volumes, resolves no
storage class, and creates no claim. -/
theorem maybeGetVolume_reuse (parse : String → Option Nat) (cluster : Cluster)
    (params : VolumeParams) (pvc : PVClaim)
    (hclaim : cluster.claims.find? (fun c => c.name == params.pvcName) = some pvc) :
    maybeGetVolume parse cluster params =
      (Except.ok { name := pvc.volumeName, claimName := params.pvcName },
       [StorageOp.claimGet params.pvcName]) ∧
    (∀ ls, StorageOp.volumeList ls ∉ (maybeGetVolume parse cluster params).2) ∧
    (∀ n, StorageOp.classGetByName n ∉ (maybeGetVolume parse cluster params).2) ∧
    (∀ ls, StorageOp.classListByLabel ls ∉ (maybeGetVolume parse cluster params).2) ∧
    StorageOp.classListAll ∉ (maybeGetVolume parse cluster params).2 ∧
    (∀ n v c m, StorageOp.claimCreate n v c m ∉ (maybeGetVolume parse cluster params).2) := by
  have key : maybeGetVolume parse cluster params =
      (Except.ok { name := pvc.volumeName, claimName := params.pvcName },
       [StorageOp.claimGet params.pvcName]) := by
    unfold maybeGetVolume
    rw [hclaim]
  refine ⟨key, ?_, ?_, ?_, ?_, ?_⟩ <;> rw [key] <;> intros <;> simp

/-- Witness for C5 at a cluster already holding the claim. -/
theorem maybeGetVolume_reuse_witness :
    maybeGetVolume parseAny clusterReuse paramsW =
      (Except.ok { name := "pv-123", claimName := "gitlab-fsvolume-0-claim" },
       [StorageOp.claimGet "gitlab-fsvolume-0-claim"]) ∧
    StorageOp.classListAll ∉ (maybeGetVolume parseAny clusterReuse paramsW).2 :=
  ⟨(maybeGetVolume_reuse parseAny clusterReuse paramsW
      { name := "gitlab-fsvolume-0-claim", volumeName := "pv-123" } rfl).1,
   (maybeGetVolume_reuse parseAny clusterReuse paramsW
      { name := "gitlab-fsvolume-0-claim", volumeName := "pv-123" } rfl).2.2.2.2.1⟩

/-! ## Claim C4 -/

/-- The by-name trace never records a claim creation. -/
theorem claimCreate_not_mem_classByNameTrace (name n v c m : String) :
    StorageOp.claimCreate n v c m ∉ classByNameTrace name := by
  unfold classByNameTrace
  split <;> simp

/-- Claim C4: with no pre-existing claim and no matching available
volume, the storage class is resolved in order: an explicitly named
class that exists is used (regardless of any label-matched classes);
otherwise the first class matching the storage-label selector;
otherwise the first class with a truthy default-class annotation; and
when none of the three applies, maybeGetVolume fails with an error
classified as not-found and creates no claim. -/
theorem maybeGetVolume_class_fallback (parse : String → Option Nat) (cluster : Cluster)
    (params : VolumeParams) (q : Nat)
    (hclaim : cluster.claims.find? (fun c => c.name == params.pvcName) = none)
    (havail : getAvailableVolume cluster params.storageClassName params.storageLabels = none) :
    (∀ sc, storageClassByName cluster params.storageClassName = some sc →
       parse params.volumeSize = some q →
       (maybeGetVolume parse cluster params).1 =
         Except.ok { name := "", claimName := params.pvcName } ∧
       StorageOp.claimCreate params.pvcName "" sc.name (accessModeOrDefault params.accessMode)
         ∈ (maybeGetVolume parse cluster params).2) ∧
    (∀ sc rest, storageClassByName cluster params.storageClassName = none →
       cluster.classes.filter (fun sc => inLabelSelector sc.labels params.storageLabels)
         = sc :: rest →
       parse params.volumeSize = some q →
       (maybeGetVolume parse cluster params).1 =
         Except.ok { name := "", claimName := params.pvcName } ∧
       StorageOp.claimCreate params.pvcName "" sc.name (accessModeOrDefault params.accessMode)
         ∈ (maybeGetVolume parse cluster params).2) ∧
    (∀ sc, storageClassByName cluster params.storageClassName = none →
       cluster.classes.filter (fun sc => inLabelSelector sc.labels params.storageLabels) = [] →
       cluster.classes.find? isDefaultStorageClass = some sc →
       parse params.volumeSize = some q →
       (maybeGetVolume parse cluster params).1 =
         Except.ok { name := "", claimName := params.pvcName } ∧
       StorageOp.claimCreate params.pvcName "" sc.name (accessModeOrDefault params.accessMode)
         ∈ (maybeGetVolume parse cluster params).2) ∧
    (storageClassByName cluster params.storageClassName = none →
     cluster.classes.filter (fun sc => inLabelSelector sc.labels params.storageLabels) = [] →
     cluster.classes.find? isDefaultStorageClass = none →
     (maybeGetVolume parse cluster params).1 =
       Except.error (StorageErr.notFound params.storageLabels) ∧
     isNotFoundErr (StorageErr.notFound params.storageLabels) = true ∧
     (∀ n v c m, StorageOp.claimCreate n v c m ∉ (maybeGetVolume parse cluster params).2)) := by
  refine ⟨?_, ?_, ?_, ?_⟩
  · intro sc hname hq
    have key : maybeGetVolume parse cluster params =
        (Except.ok { name := "", claimName := params.pvcName },
         [StorageOp.claimGet params.pvcName, StorageOp.volumeList params.storageLabels] ++
           (classByNameTrace params.storageClassName ++
            [StorageOp.claimCreate params.pvcName "" sc.name
               (accessModeOrDefault params.accessMode)])) := by
      unfold maybeGetVolume
      rw [hclaim, havail]
      unfold maybeGetStorageClass
      rw [hname]
      unfold finishClaim
      rw [hq]
      simp [List.append_assoc]
    rw [key]
    exact ⟨rfl, by simp⟩
  · intro sc rest hname hfilter hq
    have key : maybeGetVolume parse cluster params =
        (Except.ok { name := "", claimName := params.pvcName },
         [StorageOp.claimGet params.pvcName, StorageOp.volumeList params.storageLabels] ++
           ((classByNameTrace params.storageClassName ++
             [StorageOp.classListByLabel params.storageLabels]) ++
            [StorageOp.claimCreate params.pvcName "" sc.name
               (accessModeOrDefault params.accessMode)])) := by
      unfold maybeGetVolume
      rw [hclaim, havail]
      unfold maybeGetStorageClass
      rw [hname, hfilter]
      unfold finishClaim
      rw [hq]
      simp [List.append_assoc]
    rw [key]
    exact ⟨rfl, by simp⟩
  · intro sc hname hfilter hdefault hq
    have key : maybeGetVolume parse cluster params =
        (Except.ok { name := "", claimName := params.pvcName },
         [StorageOp.claimGet params.pvcName, StorageOp.volumeList params.storageLabels] ++
           ((classByNameTrace params.storageClassName ++
             [StorageOp.classListByLabel params.storageLabels, StorageOp.classListAll]) ++
            [StorageOp.claimCreate params.pvcName "" sc.name
               (accessModeOrDefault params.accessMode)])) := by
      unfold maybeGetVolume
      rw [hclaim, havail]
      unfold maybeGetStorageClass
      rw [hname, hfilter, hdefault]
      unfold finishClaim
      rw [hq]
      simp [List.append_assoc]
    rw [key]
    exact ⟨rfl, by simp⟩
  · intro hname hfilter hdefault
    have key : maybeGetVolume parse cluster params =
        (Except.error (StorageErr.notFound params.storageLabels),
         [StorageOp.claimGet params.pvcName, StorageOp.volumeList params.storageLabels] ++
           (classByNameTrace params.storageClassName ++
            [StorageOp.classListByLabel params.storageLabels, StorageOp.classListAll])) := by
      unfold maybeGetVolume
      rw [hclaim, havail]
      unfold maybeGetStorageClass
      rw [hname, hfilter, hdefault]
    rw [key]
    refine ⟨rfl, rfl, ?_⟩
    intro n v c m hmem
    rcases List.mem_append.mp hmem with h | h
    · simp at h
    · rcases List.mem_append.mp h with h2 | h2
      · exact claimCreate_not_mem_classByNameTrace params.storageClassName n v c m h2
      · simp at h2

/-- Witness for C4 at a concrete cluster: the explicitly named class
fast is chosen even though another class matches the requested labels. -/
theorem maybeGetVolume_fallback_witness :
    storageClassByName clusterW paramsW.storageClassName =
      some { name := "fast", labels := [], annotations := [(isDefaultClassKey, "true")] } ∧
    ((maybeGetVolume parseAny clusterW paramsW).1 =
       Except.ok { name := "", claimName := "gitlab-fsvolume-0-claim" } ∧
     StorageOp.claimCreate "gitlab-fsvolume-0-claim" "" "fast" "ReadWriteOnce"
       ∈ (maybeGetVolume parseAny clusterW paramsW).2) :=
  ⟨by decide,
   (maybeGetVolume_class_fallback parseAny clusterW paramsW 100 (by decide) (by decide)).1
     { name := "fast", labels := [], annotations := [(isDefaultClassKey, "true")] }
     (by decide) rfl⟩

/-! ## Claim C10 -/

/-- Every string the unit-tag parser model accepts renders nonempty
(it always carries the unit- marker). -/
theorem parseUnitTag_ne_empty : ∀ s t, parseUnitTag s = some t → t ≠ "" := by
  intro s t h
  unfold parseUnitTag at h
  cases hs : splitTag s with
  | none =>
    rw [hs] at h
    exact Option.noConfusion h
  | some kv =>
    rw [hs] at h
    obtain ⟨kind, rest⟩ := kv
    dsimp only at h
    by_cases hk : kind = "unit"
    · rw [if_pos hk] at h
      by_cases hv : isValidUnit (unitTagSuffixToId rest) = true
      · rw [if_pos hv] at h
        have ht : "unit-" ++ unitIdToName (unitTagSuffixToId rest) = t := Option.some.inj h
        intro he
        rw [← ht] at he
        have hd := congrArg String.data he
        rw [String.data_append] at hd
        have hu : ("unit-" : String).data = ['u', 'n', 'i', 't', '-'] := rfl
        rw [hu] at hd
        simp at hd
      · rw [if_neg hv] at h
        exact Option.noConfusion h
    · rw [if_neg hk] at h
      exact Option.noConfusion h

/-- Claim C10: every listed pod yields exactly one result entry, and a
result's unit tag is nonempty exactly when the pod's juju-unit label
starts with the juju- marker and the remainder is accepted by the
unit-tag parser; pods with an absent, unprefixed or unparsable label
are still included, with an empty tag. -/
theorem UnitsOf_unitTag (parse : String → Option String)
    (hparse : ∀ s t, parse s = some t → t ≠ "") (pods : List PodState) :
    (UnitsOf parse pods).length = pods.length ∧
    ∀ p, p ∈ pods →
      unitFromPod parse p ∈ UnitsOf parse pods ∧
      ((unitFromPod parse p).unitTag ≠ "" ↔
        (strHasPre (lookupDefault p.labels labelUnit) "juju-" = true ∧
         (parse (strDropChars (lookupDefault p.labels labelUnit) 5)).isSome = true)) := by
  refine ⟨by simp [UnitsOf], ?_⟩
  intro p hp
  refine ⟨List.mem_map_of_mem _ hp, ?_⟩
  by_cases hpre : strHasPre (lookupDefault p.labels labelUnit) "juju-" = true
  · cases hp2 : parse (strDropChars (lookupDefault p.labels labelUnit) 5) with
    | some t =>
      have key : (unitFromPod parse p).unitTag = t := by
        simp only [unitFromPod]
        rw [if_pos hpre, hp2]
      rw [key]
      exact ⟨fun _ => ⟨hpre, rfl⟩, fun _ => hparse _ _ hp2⟩
    | none =>
      have key : (unitFromPod parse p).unitTag = "" := by
        simp only [unitFromPod]
        rw [if_pos hpre, hp2]
      rw [key]
      simp [hp2]
  · have key : (unitFromPod parse p).unitTag = "" := by
      simp only [unitFromPod]
      rw [if_neg hpre]
    rw [key]
    simp [hpre]

/-- Witness for C10: a pod labelled juju-unit-gitlab-0 recovers a
nonempty unit tag, a pod without the label stays included with an
empty tag. -/
theorem UnitsOf_unitTag_witness :
    (UnitsOf parseUnitTag [podA, podB]).length = 2 ∧
    ((unitFromPod parseUnitTag podA).unitTag ≠ "" ↔
      (strHasPre (lookupDefault podA.labels labelUnit) "juju-" = true ∧
       (parseUnitTag (strDropChars (lookupDefault podA.labels labelUnit) 5)).isSome = true)) ∧
    ((unitFromPod parseUnitTag podB).unitTag ≠ "" ↔
      (strHasPre (lookupDefault podB.labels labelUnit) "juju-" = true ∧
       (parseUnitTag (strDropChars (lookupDefault podB.labels labelUnit) 5)).isSome = true)) :=
  ⟨(UnitsOf_unitTag parseUnitTag parseUnitTag_ne_empty [podA, podB]).1,
   ((UnitsOf_unitTag parseUnitTag parseUnitTag_ne_empty [podA, podB]).2 podA
      (by simp)).2,
   ((UnitsOf_unitTag parseUnitTag parseUnitTag_ne_empty [podA, podB]).2 podB
      (by simp)).2⟩
